import Mathlib

/-!
Shallow embedding of the valuation engine and cadastral-data normalization
layer of the valorador-online repository (src/src/lib/api/valuation.ts and
the CatastroAPI client / unit-selector sources), together with theorems
settling the specification claims about them.

JS numbers are modelled as `ℚ` (all constants in the source are small exact
decimals), JS integers as `ℤ`, absent (`undefined`) values as `Option`, and
JS truthiness (`||`, `if (x)`) explicitly: `undefined`, `0`, `NaN` and `""`
are falsy.  `parseInt(s, 10)` is modelled by `jsParseInt` returning
`Option ℤ` (`none` = `NaN`), `Math.round` by `jsRound`.

The zone price table `pricesByZone.json` imported by valuation.ts is not
part of the sources; following the spec (§3 ZoneEntry, §4.1) every function
that reads it is parameterized by an association list of
`postal code ↦ ZoneData` entries (in object-iteration order) and the
`spain_average` default constant.
-/

namespace Valorador

/-- JS truthiness of an optional string: `undefined` and `""` are falsy. -/
def strTruthy : Option String → Bool
  | none => false
  | some s => !(s == "")

/-- JS truthiness of an optional number: `undefined` and `0` are falsy. -/
def numTruthy : Option ℚ → Bool
  | none => false
  | some x => !(x == 0)

/-- JS truthiness of an optional integer: `undefined` and `0` are falsy. -/
def intTruthy : Option ℤ → Bool
  | none => false
  | some x => !(x == 0)

/-- JS `v || d` for an optional number `v`. -/
def numOr (v : Option ℚ) (d : ℚ) : ℚ := if numTruthy v then v.getD 0 else d

/-- JS `v || d` for an optional integer `v`. -/
def intOr (v : Option ℤ) (d : ℤ) : ℤ := if intTruthy v then v.getD 0 else d

/-- JS `v || d` for an optional string `v`. -/
def strOr (v : Option String) (d : String) : String :=
  if strTruthy v then v.getD "" else d

/-- JS `Math.round`: round half up (`Math.round x = ⌊x + 0.5⌋`). -/
def jsRound (q : ℚ) : ℤ := ⌊q + 1/2⌋

/-- The longest prefix of decimal digits of a character list. -/
def digitsPrefix : List Char → List Char
  | [] => []
  | c :: cs => if c.isDigit then c :: digitsPrefix cs else []

/-- Value of a list of decimal digits. -/
def digitsToNat (ds : List Char) : ℕ :=
  List.foldl (fun a c => 10 * a + (c.toNat - '0'.toNat)) 0 ds

/-- JS `parseInt(s, 10)`: skip leading whitespace, optional sign, longest
digit prefix; `none` models `NaN` (no digits). -/
def jsParseInt (s : String) : Option ℤ :=
  let cs := s.data.dropWhile (fun c => c == ' ' || c == '\t' || c == '\n' || c == '\r')
  let signRest : ℤ × List Char :=
    match cs with
    | '-' :: r => (-1, r)
    | '+' :: r => (1, r)
    | r => (1, r)
  let ds := digitsPrefix signRest.2
  if ds.isEmpty then none else some (signRest.1 * (digitsToNat ds : ℤ))

/-- JS `s.replace(a, b)` with one-character string arguments: replace the
first occurrence only. -/
def replaceFirst : List Char → Char → Char → List Char
  | [], _, _ => []
  | c :: cs, a, b => if c == a then b :: cs else c :: replaceFirst cs a b

/-- `replaceFirst` on strings. -/
def replaceFirstStr (s : String) (a b : Char) : String :=
  ⟨replaceFirst s.data a b⟩

/-! ## Zone price table (spec-modelled reference data)

Modelled from the spec: the file `src/data/pricesByZone.json` is absent from
the sources; per spec §3/§4.1 it is a read-only table of postal-code keyed
zone entries (city, zone label, price per m², tier) plus a nationwide
`spain_average` default.  All functions below take the table and the
average as parameters. -/

/-- One entry of the zone price table (valuation.ts `ZoneData`). -/
structure ZoneData where
  city : String
  zone : String
  pricePerSqm : ℚ
  tier : String
deriving DecidableEq, Repr

/-- The zone table, as `postal code ↦ ZoneData` in object-iteration order. -/
abbrev ZoneTable := List (String × ZoneData)

/-- JS `prices.zones[pc]`: lookup by exact key. -/
def zoneLookup (zones : ZoneTable) (pc : String) : Option ZoneData :=
  (zones.find? (fun e => e.1 == pc)).map (·.2)

/-- Finish-quality enum of `PropertyData` (valuationStore.ts). -/
inductive FinishQuality where
  | design | good | acceptable | small_reform | full_reform
deriving DecidableEq, Repr

/-- `Partial<PropertyData>` (valuationStore.ts): the fields read by the
valuation engine; every field may be absent.  (The remaining fields of the
TS interface — address, propertyType, buildingType, streetViewUrl — are
never read by the engine and are omitted.) -/
structure PropertyData where
  postalCode : Option String := none
  city : Option String := none
  latitude : Option ℚ := none
  longitude : Option ℚ := none
  cadastralReference : Option String := none
  surface : Option ℚ := none
  constructionYear : Option ℤ := none
  bedrooms : Option ℚ := none
  bathrooms : Option ℚ := none
  extras : Option (List String) := none
  finishQuality : Option FinishQuality := none
deriving DecidableEq, Repr

/-- `ValuationResult` (valuationStore.ts); all prices are rounded integers. -/
structure ValuationResult where
  conservative : ℤ
  estimated : ℤ
  optimistic : ℤ
  pricePerSqm : ℤ
  confidence : ℕ
deriving DecidableEq, Repr

/-- valuation.ts `getBasePricePerSqm`: exact postal-code match, else
case-insensitive city match, else 3-digit-prefix match at a 15% discount,
else the nationwide average. -/
def getBasePricePerSqm (zones : ZoneTable) (spainAverage : ℚ)
    (postalCode city : Option String) : ℚ :=
  match (if strTruthy postalCode then zoneLookup zones (postalCode.getD "") else none) with
  | some z => z.pricePerSqm
  | none =>
    match (if strTruthy city then
            zones.find? (fun e => e.2.city.toLower == (city.getD "").toLower)
           else none) with
    | some e => e.2.pricePerSqm
    | none =>
      match (if strTruthy postalCode then
              zones.find? (fun e => ((postalCode.getD "").take 3).isPrefixOf e.1)
             else none) with
      | some e => e.2.pricePerSqm * (85/100)
      | none => spainAverage

/-- valuation.ts `getYearAdjustment`; `currentYear` models
`new Date().getFullYear()`. -/
def getYearAdjustment (currentYear : ℤ) (year : Option ℤ) : ℚ :=
  if intTruthy year then
    let age := currentYear - year.getD 0
    if age ≤ 0 then 15/100
    else if age ≤ 5 then 10/100
    else if age ≤ 10 then 5/100
    else if age ≤ 20 then 0
    else if age ≤ 40 then -5/100
    else if age ≤ 60 then -10/100
    else -12/100
  else 0

/-- valuation.ts `extraValues` lookup table inside `getExtrasAdjustment`. -/
def extraValues : String → Option ℚ
  | "Terraza" => some (5/100)
  | "Amueblado" => some (2/100)
  | "Trastero" => some (2/100)
  | "Piscina" => some (4/100)
  | "Parking" => some (5/100)
  | "Jardín" => some (4/100)
  | "Cerca ciudad" => some (2/100)
  | "Com. cerrada" => some (3/100)
  | "Buenas vistas" => some (4/100)
  | "Seguridad" => some (2/100)
  | "Deportes" => some (2/100)
  | "Portero" => some (2/100)
  | "Aire A/C" => some (2/100)
  | "Calefacción" => some (2/100)
  | "Domótica" => some (3/100)
  | "Ascensor" => some (2/100)
  | "Balcón" => some (2/100)
  | _ => none

/-- `extraValues[extra] || 0.01`. -/
def perExtra (t : String) : ℚ := numOr (extraValues t) (1/100)

/-- The uncapped accumulation loop of `getExtrasAdjustment`. -/
def rawExtrasSum (extras : List String) : ℚ :=
  List.foldl (fun acc t => acc + perExtra t) 0 extras

/-- valuation.ts `getExtrasAdjustment`: per-tag sum capped at 0.25. -/
def getExtrasAdjustment (extras : List String) : ℚ :=
  min (rawExtrasSum extras) (25/100)

/-- valuation.ts `getFinishQualityAdjustment`. -/
def getFinishQualityAdjustment (quality : Option FinishQuality) : ℚ :=
  match quality with
  | some .design => 15/100
  | some .good => 5/100
  | some .acceptable => 0
  | some .small_reform => -10/100
  | some .full_reform => -20/100
  | none => 0

/-- valuation.ts `getSizeAdjustment`. -/
def getSizeAdjustment (surface : ℚ) : ℚ :=
  if surface < 50 then 10/100
  else if surface < 80 then 5/100
  else if surface < 120 then 0
  else if surface < 180 then -3/100
  else if surface < 250 then -5/100
  else -8/100

/-- valuation.ts `getRoomsAdjustment`. -/
def getRoomsAdjustment (bedrooms bathrooms surface : Option ℚ) : ℚ :=
  if !numTruthy bedrooms || !numTruthy surface then 0
  else
    let s := surface.getD 0
    let sqmPerBedroom := s / bedrooms.getD 0
    if sqmPerBedroom < 15 then -5/100
    else if sqmPerBedroom > 50 then -2/100
    else if numTruthy bathrooms && decide (2 ≤ bathrooms.getD 0) && decide ((100:ℚ) ≤ s) then 2/100
    else 0

/-- valuation.ts `calculateConfidence`. -/
def calculateConfidence (zones : ZoneTable) (p : PropertyData) : ℕ :=
  let score : ℕ := 50
    + (if strTruthy p.postalCode then
         (if (zoneLookup zones (p.postalCode.getD "")).isSome then 15 else 5)
       else 0)
    + (if strTruthy p.city then 5 else 0)
    + (if numTruthy p.latitude && numTruthy p.longitude then 5 else 0)
    + (if numTruthy p.surface then 5 else 0)
    + (if intTruthy p.constructionYear then 5 else 0)
    + (if strTruthy p.cadastralReference then 5 else 0)
    + (if numTruthy p.bedrooms then 3 else 0)
    + (if numTruthy p.bathrooms then 2 else 0)
    + (if (match p.extras with | some l => decide (0 < l.length) | none => false) then 3 else 0)
    + (if p.finishQuality.isSome then 2 else 0)
  min score 95

/-- Step 3 of valuation.ts `calculateValuation`: the total adjustment
factor `1 + Σ adjustments`. -/
def totalAdjustmentOf (currentYear : ℤ) (p : PropertyData) : ℚ :=
  1 + getYearAdjustment currentYear p.constructionYear
    + getExtrasAdjustment (p.extras.getD [])
    + getFinishQualityAdjustment p.finishQuality
    + getSizeAdjustment (numOr p.surface 100)
    + getRoomsAdjustment p.bedrooms p.bathrooms p.surface

/-- valuation.ts `calculateValuation`, parameterized by the zone table, the
`spain_average` default and the current clock year. -/
def calculateValuation (zones : ZoneTable) (spainAverage : ℚ) (currentYear : ℤ)
    (p : PropertyData) : ValuationResult :=
  let basePricePerSqm := getBasePricePerSqm zones spainAverage p.postalCode p.city
  let totalAdjustment := totalAdjustmentOf currentYear p
  let adjustedPricePerSqm := basePricePerSqm * totalAdjustment
  let surface := numOr p.surface 100
  let estimatedValue := adjustedPricePerSqm * surface
  let marginPercent : ℚ := 10/100
  let conservativeValue := estimatedValue * (1 - marginPercent)
  let optimisticValue := estimatedValue * (1 + marginPercent)
  { conservative := jsRound conservativeValue
    estimated := jsRound estimatedValue
    optimistic := jsRound optimisticValue
    pricePerSqm := jsRound adjustedPricePerSqm
    confidence := calculateConfidence zones p }

/-! ## Cadastral normalizer (CatastroAPI client, `parseCadastralResponse`)

The raw registry response is duck-typed in the source; we model exactly the
shapes the code distinguishes: the unique reference may be absent, a flat
string, or an object of parts; `direccion` may be absent, a string, or an
object; all other read fields are optional strings (the code passes every
numeric-or-string field through `String(...)` before parsing).  The
`plantas`/`lat`/`lng` inputs and the `floors`/`latitude`/`longitude`
outputs are not touched by any claim and are omitted. -/

/-- The structured form of `referenciaCatastral`
(`{referenciaCatastral?, pc1, pc2, car, cc1, cc2}`). -/
structure RCObj where
  referenciaCatastral : Option String := none
  pc1 : Option String := none
  pc2 : Option String := none
  car : Option String := none
  cc1 : Option String := none
  cc2 : Option String := none
deriving DecidableEq, Repr

/-- A reference-bearing field: absent, flat string, or structured object. -/
inductive RCField where
  | absent
  | str (s : String)
  | obj (o : RCObj)
deriving DecidableEq, Repr

/-- JS truthiness of a reference field: objects are always truthy. -/
def rcTruthy : RCField → Bool
  | .absent => false
  | .str s => !(s == "")
  | .obj _ => true

/-- JS `a || b` on reference fields. -/
def jsOrRC (a b : RCField) : RCField := if rcTruthy a then a else b

/-- JS `a || b` on optional strings (keeping absence). -/
def jsOrStr (a b : Option String) : Option String := if strTruthy a then a else b

/-- The `direccion` sub-object: address value plus postal/municipality/
province/floor/door aliases. -/
structure Direccion where
  valor : Option String := none
  codigoPostal : Option String := none
  cp : Option String := none
  nombreMunicipio : Option String := none
  municipio : Option String := none
  nombreProvincia : Option String := none
  provincia : Option String := none
  planta : Option String := none
  piso : Option String := none
  puerta : Option String := none
  letra : Option String := none
deriving DecidableEq, Repr

/-- A `direccion` field: absent, flat string, or object. -/
inductive DireccionField where
  | absent
  | str (s : String)
  | obj (d : Direccion)
deriving DecidableEq, Repr

/-- The `datosEconomicos` sub-object (note the accented `añoConstruccion`
key variant, distinct from `anoConstruccion`). -/
structure DatosEconomicos where
  uso : Option String := none
  superficieConstruida : Option String := none
  superficie : Option String := none
  anoConstruccionTilde : Option String := none  -- the accented key `añoConstruccion`
  anoConstruccion : Option String := none
deriving DecidableEq, Repr

/-- One raw registry property object (a unit of `inmuebles`, or the
top-level response itself when it carries the fields directly). -/
structure Inmueble where
  rc : RCField := .absent
  referenciaCatastral : RCField := .absent
  direccion : DireccionField := .absent
  domicilio : Option String := none
  codigoPostal : Option String := none
  municipio : Option String := none
  provincia : Option String := none
  datosEconomicos : Option DatosEconomicos := none
  uso : Option String := none
  usoPrincipal : Option String := none
  superficie : Option String := none
  superficieConstruida : Option String := none
  anoConstruccion : Option String := none
  ano : Option String := none
  tipoInmueble : Option String := none
deriving DecidableEq, Repr

/-- One raw registry response: its own property fields (`top`), the
optional unit list (absence and the empty list behave identically in the
code), and `numeroInmuebles`. -/
structure CatastroResponse where
  top : Inmueble := {}
  inmuebles : List Inmueble := []
  numeroInmuebles : Option ℤ := none
deriving DecidableEq, Repr

/-- The canonical record produced by normalization (`CadastralData`);
`floors`/`latitude`/`longitude` omitted (untouched by the claims). -/
structure CadastralData where
  cadastralReference : String
  address : String
  postalCode : String
  municipality : String
  province : String
  propertyType : String
  buildingType : String
  surface : ℤ
  constructionYear : ℤ
deriving DecidableEq, Repr

/-- The fixed use-code → label table (`useMapping`). -/
def useMapping : String → Option String
  | "V" => some "Residencial"
  | "I" => some "Industrial"
  | "O" => some "Oficinas"
  | "C" => some "Comercial"
  | "K" => some "Deportivo"
  | "T" => some "Espectáculos"
  | "G" => some "Ocio y Hostelería"
  | "Y" => some "Sanidad y Beneficencia"
  | "E" => some "Educación"
  | "R" => some "Religioso"
  | "M" => some "Obras de urbanización"
  | "P" => some "Edificio singular"
  | "B" => some "Almacén-Estacionamiento"
  | "A" => some "Almacén agrario"
  | "J" => some "Industrial agrario"
  | "Z" => some "Agrario"
  | _ => none

/-- `` `${o.pc1 || ''}${o.pc2 || ''}${o.car || ''}${o.cc1 || ''}${o.cc2 || ''}` ``. -/
def concatRCParts (o : RCObj) : String :=
  strOr o.pc1 "" ++ strOr o.pc2 "" ++ strOr o.car "" ++ strOr o.cc1 "" ++ strOr o.cc2 ""

/-- Resolution of an rc value: a string verbatim; an object's explicit
`referenciaCatastral` else the concatenation of its parts; else `""`. -/
def resolveRC : RCField → String
  | .str s => s
  | .obj o => strOr o.referenciaCatastral (concatRCParts o)
  | .absent => ""

/-- `propertyData.rc || propertyData.referenciaCatastral || data.rc`. -/
def rcValueOf (pd : Inmueble) (d : CatastroResponse) : RCField :=
  jsOrRC pd.rc (jsOrRC pd.referenciaCatastral d.top.rc)

/-- Address resolution: a string `direccion` verbatim, else
`direccion?.valor || domicilio || ''`. -/
def resolveAddress (pd : Inmueble) : String :=
  match pd.direccion with
  | .str s => s
  | .obj dobj => strOr dobj.valor (strOr pd.domicilio "")
  | .absent => strOr pd.domicilio ""

/-- `(typeof pd.direccion === 'object') ? pd.direccion : {}`. -/
def direccionObjOf (pd : Inmueble) : Direccion :=
  match pd.direccion with
  | .obj dobj => dobj
  | _ => {}

/-- The representative property: the first unit when `inmuebles` is
non-empty, else the response itself. -/
def chosenPD (d : CatastroResponse) : Inmueble :=
  match d.inmuebles with
  | i :: _ => i
  | [] => d.top

/-- `data.numeroInmuebles > 1` (comparison with `undefined` is false). -/
def numeroGtOne (d : CatastroResponse) : Bool :=
  match d.numeroInmuebles with
  | some n => decide (1 < n)
  | none => false

/-- The surface source string with its fallback chain. -/
def surfaceStrOf (pd : Inmueble) : String :=
  let econ := pd.datosEconomicos.getD {}
  strOr econ.superficieConstruida (strOr econ.superficie
    (strOr pd.superficie (strOr pd.superficieConstruida "100")))

/-- The construction-year source string with its fallback chain. -/
def yearStrOf (pd : Inmueble) : String :=
  let econ := pd.datosEconomicos.getD {}
  strOr econ.anoConstruccionTilde (strOr econ.anoConstruccion
    (strOr pd.anoConstruccion (strOr pd.ano "2000")))

/-- The use-code with its fallback chain (default `"V"`). -/
def usoOf (pd : Inmueble) : String :=
  let econ := pd.datosEconomicos.getD {}
  strOr econ.uso (strOr pd.uso (strOr pd.usoPrincipal "V"))

/-- catastro.ts `parseCadastralResponse`: `null` for an absent response,
otherwise tolerant per-field resolution with documented defaults. -/
def parseCadastralResponse (data : Option CatastroResponse) : Option CadastralData :=
  match data with
  | none => none
  | some d =>
    let pd := chosenPD d
    let rc := resolveRC (rcValueOf pd d)
    let direccion := direccionObjOf pd
    let uso := usoOf pd
    let buildingType :=
      let t := match pd.tipoInmueble with | some s => s | none => ""
      if t == "" then (if numeroGtOne d then "Plurifamiliar" else "Unifamiliar") else t
    some {
      cadastralReference := rc
      address := resolveAddress pd
      postalCode := strOr direccion.codigoPostal (strOr direccion.cp (strOr pd.codigoPostal ""))
      municipality := strOr direccion.nombreMunicipio (strOr direccion.municipio (strOr pd.municipio ""))
      province := strOr direccion.nombreProvincia (strOr direccion.provincia (strOr pd.provincia ""))
      propertyType := strOr (useMapping uso) (if uso == "" then "Residencial" else uso)
      buildingType := buildingType
      surface := intOr (jsParseInt (replaceFirstStr (surfaceStrOf pd) ',' '.')) 100
      constructionYear := intOr (jsParseInt (yearStrOf pd)) 2000 }

/-! ## Unit selector (UnitSelector component) -/

/-- Result of `parseDatosEconomicos`: `none` surface/year model `NaN`. -/
structure UnitEcon where
  superficie : Option ℤ
  uso : String
  ano : Option ℤ
deriving DecidableEq, Repr

/-- UnitSelector `parseDatosEconomicos`: reads `datosEconomicos` only, with
`'0'` defaults and no comma normalization. -/
def parseDatosEconomicos (inm : Inmueble) : UnitEcon :=
  let econ := inm.datosEconomicos.getD {}
  { superficie := jsParseInt (strOr econ.superficieConstruida (strOr econ.superficie "0"))
    uso := strOr econ.uso "Residencial"
    ano := jsParseInt (strOr econ.anoConstruccionTilde (strOr econ.anoConstruccion "0")) }

/-- UnitSelector `getRCString`. -/
def getRCString (inm : Inmueble) : String :=
  match inm.referenciaCatastral with
  | .str s => s
  | .obj o => strOr o.referenciaCatastral (concatRCParts o)
  | .absent => ""

/-- UnitSelector `formatFloor`: `"Bajo"` for empty, unparseable, or zero
floors, `"Nº"` otherwise. -/
def formatFloor (planta : String) : String :=
  if planta == "" then "Bajo"
  else match jsParseInt planta with
    | none => "Bajo"
    | some n => if n == 0 then "Bajo" else toString n ++ "º"

/-- UnitSelector `parseFloorDoor` (`inmueble.direccion || {}` is
truthiness-based: a string `direccion` has no `planta`/`puerta`). -/
def parseFloorDoor (inm : Inmueble) : String × String :=
  match inm.direccion with
  | .obj d => (strOr d.planta (strOr d.piso ""), strOr d.puerta (strOr d.letra ""))
  | _ => ("", "")

/-- The attribute update performed by UnitSelector `handleSelectUnit`. -/
structure SelectedUnitAttrs where
  cadastralReference : String
  surface : Option ℤ
  constructionYear : Option ℤ
  propertyType : String
  postalCode : Option String
deriving DecidableEq, Repr

/-- UnitSelector `handleSelectUnit`: elevate one raw unit into
`PropertyAttributes` fields. -/
def selectUnitAttrs (inm : Inmueble) (prevPostal : Option String) : SelectedUnitAttrs :=
  let e := parseDatosEconomicos inm
  { cadastralReference := getRCString inm
    surface := e.superficie
    constructionYear := e.ano
    propertyType := e.uso
    postalCode :=
      jsOrStr (match inm.direccion with | .obj d => d.codigoPostal | _ => none) prevPostal }

/-! ## Spec-side definition for the refinement claim on the zone lookup -/

/-- The four-step precedence of §4.1 written from the spec's words (for
comparison with `getBasePricePerSqm`): (1) exact postal-code key; (2)
case-insensitive city match; (3) a zone key starting with the postal code's
first 3 digits, discounted 15%; (4) the nationwide average. -/
def specBasePricePerSqm (zones : ZoneTable) (spainAverage : ℚ)
    (postalCode city : Option String) : ℚ :=
  let cityEntry : Option (String × ZoneData) :=
    match city with
    | some c => zones.find? (fun e => e.2.city.toLower == c.toLower)
    | none => none
  let prefixEntry : Option (String × ZoneData) :=
    match postalCode with
    | some pc => zones.find? (fun e => (pc.take 3).isPrefixOf e.1)
    | none => none
  match postalCode.bind (zoneLookup zones) with
  | some z => z.pricePerSqm
  | none =>
    match cityEntry with
    | some e => e.2.pricePerSqm
    | none =>
      match prefixEntry with
      | some e => e.2.pricePerSqm * (85/100)
      | none => spainAverage

/-! ## Concrete fixtures for witnesses and counterexamples

The real `pricesByZone.json` values are not in the sources, so concrete
evaluations use this small fixture table; every theorem about the engine is
parameterized over the table. -/

/-- Fixture zone table. -/
def testZones : ZoneTable :=
  [("28014", { city := "Madrid", zone := "Centro", pricePerSqm := 5000, tier := "premium" }),
   ("08001", { city := "Barcelona", zone := "Ciutat Vella", pricePerSqm := 4200, tier := "high" })]

/-- Fixture nationwide average. -/
def testAvg : ℚ := 2000

/-- A snapshot with a negative surface (violating the data model's
"positive number" typing of surface, but representable in `Partial<PropertyData>`). -/
def pNegSurface : PropertyData := { surface := some (-50) }

/-- The §8 scenario snapshot: postalCode 28014, city Madrid, surface 100,
constructionYear 2000, no extras, acceptable finish. -/
def pScenario : PropertyData :=
  { postalCode := some "28014", city := some "Madrid", surface := some 100,
    constructionYear := some 2000, finishQuality := some .acceptable }

/-- Witness snapshot for the ordering claim. -/
def pOrderingWitness : PropertyData :=
  { postalCode := some "28014", surface := some 100 }

/-- A wholly empty registry response (present but with every field absent). -/
def emptyResponse : CatastroResponse := {}

/-- Registry response carrying the §8 structured reference object and no
flat string. -/
def rcPartsResponse : CatastroResponse :=
  { top := { referenciaCatastral := RCField.obj ⟨none, some "98", some "72023", some "VH", some "57", some "97"⟩ } }

/-- The same reference supplied as an already-flattened string. -/
def rcStrResponse : CatastroResponse :=
  { top := { referenciaCatastral := .str "9872023VH5797" } }

/-- Response whose surface uses a decimal comma and whose accented year
field does not parse. -/
def r85Response : CatastroResponse :=
  { top := { datosEconomicos := some ⟨none, some "85,5", none, some "abc", none⟩ } }

/-- Response whose surface field parses to `0`. -/
def rZeroResponse : CatastroResponse :=
  { top := { datosEconomicos := some ⟨none, none, some "0", none, none⟩ } }

/-- A fully resolvable building unit. -/
def unitInm : Inmueble :=
  { referenciaCatastral := .str "9872023VH5797S0001WX",
    datosEconomicos := some ⟨some "Residencial", some "85", none, some "1999", none⟩ }

/-- A multi-unit response whose first unit is `unitInm`. -/
def unitResponse : CatastroResponse :=
  { inmuebles := [unitInm], numeroInmuebles := some 4 }

/-- A multi-unit response whose first unit has every field absent. -/
def emptyUnitResponse : CatastroResponse :=
  { inmuebles := [({} : Inmueble)], numeroInmuebles := some 2 }

/-! ## Null-aware normalizer model

The JSON value `null` is distinct from an absent field and from the shapes
above: `typeof null === 'object'`, so a null `direccion` passes the
object-branch test and the subsequent `direccion.codigoPostal` access
throws a TypeError; likewise a null entry in `inmuebles` becomes
`propertyData` and `propertyData.rc` throws.  Every other read in
`parseCadastralResponse` is truthiness-guarded or optional-chained
(`propertyData.direccion?.valor`), so null behaves as absent there.  The
model below represents these two null shapes and returns `Except.error`
where the source throws; on null-free paths the field resolution is the
(already embedded) null-free one, applied to the demoted response. -/

/-- A `direccion` field including the JSON `null` value. -/
inductive DireccionFieldE where
  | absent
  | jsNull
  | str (s : String)
  | obj (d : Direccion)
deriving DecidableEq, Repr

/-- A raw property object whose `direccion` may be JSON null (all other
fields as in `Inmueble`: their accesses are truthiness-guarded, so null
and absent coincide for them). -/
structure InmuebleE where
  rc : RCField := .absent
  referenciaCatastral : RCField := .absent
  direccion : DireccionFieldE := .absent
  domicilio : Option String := none
  codigoPostal : Option String := none
  municipio : Option String := none
  provincia : Option String := none
  datosEconomicos : Option DatosEconomicos := none
  uso : Option String := none
  usoPrincipal : Option String := none
  superficie : Option String := none
  superficieConstruida : Option String := none
  anoConstruccion : Option String := none
  ano : Option String := none
  tipoInmueble : Option String := none
deriving DecidableEq, Repr

/-- A raw response whose unit list may contain JSON null entries
(`none`); a null or absent `inmuebles` array itself is falsy and behaves
like the empty list. -/
structure CatastroResponseE where
  top : InmuebleE := {}
  inmuebles : List (Option InmuebleE) := []
  numeroInmuebles : Option ℤ := none
deriving DecidableEq, Repr

/-- Demotion of a `direccion` to the null-free model: on every
non-throwing path a null `direccion` is read only through
`propertyData.direccion?.valor` (address), where it behaves as absent. -/
def demoteDireccion : DireccionFieldE → DireccionField
  | .absent => .absent
  | .jsNull => .absent
  | .str s => .str s
  | .obj d => .obj d

/-- Demotion of a property object to the null-free model (identity on
every field but `direccion`). -/
def demoteInmueble (i : InmuebleE) : Inmueble :=
  { rc := i.rc, referenciaCatastral := i.referenciaCatastral,
    direccion := demoteDireccion i.direccion, domicilio := i.domicilio,
    codigoPostal := i.codigoPostal, municipio := i.municipio,
    provincia := i.provincia, datosEconomicos := i.datosEconomicos,
    uso := i.uso, usoPrincipal := i.usoPrincipal, superficie := i.superficie,
    superficieConstruida := i.superficieConstruida,
    anoConstruccion := i.anoConstruccion, ano := i.ano,
    tipoInmueble := i.tipoInmueble }

/-- The representative property in the null-aware model: the first unit
(possibly null) when `inmuebles` is non-empty, else the response itself. -/
def chosenPDE (d : CatastroResponseE) : Option InmuebleE :=
  match d.inmuebles with
  | u :: _ => u
  | [] => some d.top

/-- catastro.ts `parseCadastralResponse` with the JSON null shapes
represented; `Except.error` models a thrown TypeError.  A null first unit
is selected as `propertyData` and `propertyData.rc` throws; a null
`direccion` passes `typeof === 'object'` and `direccion.codigoPostal`
throws.  On null-free paths the resolution is `parseCadastralResponse`
on the demoted response (same representative property, same top-level
`rc` fallback, same `numeroInmuebles`). -/
def parseCadastralResponseE (data : Option CatastroResponseE) :
    Except String (Option CadastralData) :=
  match data with
  | none => Except.ok none
  | some d =>
    match chosenPDE d with
    | none => Except.error "TypeError"
    | some pd =>
      match pd.direccion with
      | DireccionFieldE.jsNull => Except.error "TypeError"
      | _ =>
        Except.ok (parseCadastralResponse (some
          { top := demoteInmueble d.top
            inmuebles := match d.inmuebles with
                         | [] => []
                         | _ => [demoteInmueble pd]
            numeroInmuebles := d.numeroInmuebles }))

/-- Response whose representative property carries a JSON null
`direccion`. -/
def nullDireccionResponse : CatastroResponseE :=
  { top := { direccion := DireccionFieldE.jsNull } }

/-- Response whose first building unit is JSON null. -/
def nullUnitResponse : CatastroResponseE :=
  { inmuebles := [none], numeroInmuebles := some 2 }

/-- The all-absent response in the null-aware model. -/
def emptyResponseE : CatastroResponseE := {}

/-- The record of documented defaults: empty strings, "Residencial",
"Unifamiliar", surface 100, constructionYear 2000. -/
def defaultCadastralRecord : CadastralData :=
  { cadastralReference := "", address := "", postalCode := "",
    municipality := "", province := "", propertyType := "Residencial",
    buildingType := "Unifamiliar", surface := 100, constructionYear := 2000 }

/-! ## General lemmas -/

theorem strOr_some (s d : String) (h : s ≠ "") : strOr (some s) d = s := by
  simp [strOr, strTruthy, h]

theorem strOr_some_empty (s : String) : strOr (some s) "" = s := by
  by_cases h : s = "" <;> simp [strOr, strTruthy, h]

theorem strOr_none (d : String) : strOr none d = d := rfl

theorem jsParseInt_empty : jsParseInt "" = none := rfl

theorem jsRound_mono {a b : ℚ} (h : a ≤ b) : jsRound a ≤ jsRound b :=
  Int.floor_le_floor (by linarith)

theorem zoneLookup_mem (zones : ZoneTable) (pc : String) (z : ZoneData)
    (h : zoneLookup zones pc = some z) : ∃ e ∈ zones, e.2 = z := by
  unfold zoneLookup at h
  rcases hf : zones.find? (fun e => e.1 == pc) with _ | e
  · rw [hf] at h; simp at h
  · rw [hf] at h
    simp at h
    exact ⟨e, List.mem_of_find?_eq_some hf, h⟩

theorem extraValues_lower (t : String) (v : ℚ) (h : extraValues t = some v) :
    2/100 ≤ v := by
  unfold extraValues at h
  split at h <;> first
  | (injection h with h2; subst h2; norm_num)
  | simp at h

theorem perExtra_lower (t : String) : 1/100 ≤ perExtra t := by
  unfold perExtra numOr
  rcases h : extraValues t with _ | v
  · simp [numTruthy]
  · have hv := extraValues_lower t v h
    have hnz : numTruthy (some v) = true := by
      simp [numTruthy]
      intro h0
      rw [h0] at hv
      norm_num at hv
    simp [hnz]
    linarith

theorem foldl_perExtra (l : List String) (a : ℚ) :
    List.foldl (fun acc t => acc + perExtra t) a l = a + (l.map perExtra).sum := by
  induction l generalizing a with
  | nil => simp
  | cons t ts ih => simp [ih]; ring

theorem rawExtrasSum_eq_sum (l : List String) :
    rawExtrasSum l = (l.map perExtra).sum := by
  simpa using foldl_perExtra l 0

theorem rawExtrasSum_nonneg (l : List String) : 0 ≤ rawExtrasSum l := by
  rw [rawExtrasSum_eq_sum]
  apply List.sum_nonneg
  intro x hx
  obtain ⟨t, _, rfl⟩ := List.mem_map.mp hx
  linarith [perExtra_lower t]

theorem rawExtrasSum_append (l : List String) (t : String) :
    rawExtrasSum (l ++ [t]) = rawExtrasSum l + perExtra t := by
  simp [rawExtrasSum_eq_sum]

/-! ## Claim theorems -/

/-- **C4**: `calculateConfidence` always returns a score in [50, 95] (base
50 plus only non-negative bonuses, capped at 95), and returns exactly 50
for a fully empty attribute set. -/
theorem confidence_in_range (zones : ZoneTable) (p : PropertyData) :
    50 ≤ calculateConfidence zones p ∧ calculateConfidence zones p ≤ 95
    ∧ calculateConfidence zones {} = 50 := by
  refine ⟨?_, ?_, rfl⟩
  · simp only [calculateConfidence]
    refine Nat.le_min.mpr ⟨?_, by norm_num⟩
    omega
  · simp only [calculateConfidence]
    exact Nat.min_le_right _ _

/-- **C5**: the extras adjustment never decreases when a tag (recognized
or not) is appended; an unrecognized tag contributes exactly +0.01 to the
uncapped sum; the adjustment is capped at +0.25; and the eight §8 tags sum
to 0.27 uncapped but yield the capped adjustment 0.25. -/
theorem extras_adjustment_claims :
    (∀ (l : List String) (t : String),
      getExtrasAdjustment l ≤ getExtrasAdjustment (l ++ [t]))
    ∧ (∀ (l : List String) (t : String), extraValues t = none →
      rawExtrasSum (l ++ [t]) = rawExtrasSum l + 1/100)
    ∧ (∀ l : List String, getExtrasAdjustment l ≤ 25/100)
    ∧ rawExtrasSum ["Piscina", "Parking", "Jardín", "Terraza", "Ascensor",
        "Balcón", "Seguridad", "Domótica"] = 27/100
    ∧ getExtrasAdjustment ["Piscina", "Parking", "Jardín", "Terraza", "Ascensor",
        "Balcón", "Seguridad", "Domótica"] = 25/100 := by
  have h27 : rawExtrasSum ["Piscina", "Parking", "Jardín", "Terraza", "Ascensor",
      "Balcón", "Seguridad", "Domótica"] = 27/100 := by
    rw [rawExtrasSum_eq_sum]
    norm_num [perExtra, extraValues, numOr, numTruthy]
  refine ⟨?_, ?_, ?_, h27, ?_⟩
  · intro l t
    unfold getExtrasAdjustment
    rw [rawExtrasSum_append]
    exact min_le_min (by linarith [perExtra_lower t]) le_rfl
  · intro l t h
    rw [rawExtrasSum_append]
    simp [perExtra, h, numOr, numTruthy]
  · intro l
    exact min_le_right _ _
  · unfold getExtrasAdjustment
    rw [h27]
    norm_num [min_def]

/-- Witness for the extras claims: appending the unrecognized tag
"Jacuzzi" adds exactly +0.01 to the uncapped sum. -/
theorem extras_adjustment_claims_witness :
    extraValues "Jacuzzi" = none
    ∧ rawExtrasSum (["Piscina"] ++ ["Jacuzzi"]) = rawExtrasSum ["Piscina"] + 1/100 :=
  ⟨rfl, extras_adjustment_claims.2.1 ["Piscina"] "Jacuzzi" rfl⟩

/-- **C2**: `getBasePricePerSqm` implements the spec's four-step precedence
(exact key, case-insensitive city, 3-digit prefix at 15% discount,
nationwide average) for every present-or-absent postal code and city (a
present value being a non-empty string), and falls through to the average
when both are absent. -/
theorem basePrice_precedence (zones : ZoneTable) (avg : ℚ)
    (postalCode city : Option String)
    (hpc : postalCode ≠ some "") (hcity : city ≠ some "") :
    getBasePricePerSqm zones avg postalCode city
      = specBasePricePerSqm zones avg postalCode city
    ∧ getBasePricePerSqm zones avg none none = avg := by
  refine ⟨?_, rfl⟩
  unfold getBasePricePerSqm specBasePricePerSqm
  rcases postalCode with _ | pc <;> rcases city with _ | c
  · rfl
  · have hc : c ≠ "" := fun h => hcity (by rw [h])
    simp [strTruthy, hc]
  · have hp : pc ≠ "" := fun h => hpc (by rw [h])
    simp [strTruthy, hp]
  · have hc : c ≠ "" := fun h => hcity (by rw [h])
    have hp : pc ≠ "" := fun h => hpc (by rw [h])
    simp [strTruthy, hp, hc]

/-- Witness for the zone-lookup precedence claim on the fixture table. -/
theorem basePrice_precedence_witness :
    (some "28014" : Option String) ≠ some ""
    ∧ (some "Madrid" : Option String) ≠ some ""
    ∧ getBasePricePerSqm testZones testAvg (some "28014") (some "Madrid")
        = specBasePricePerSqm testZones testAvg (some "28014") (some "Madrid")
    ∧ getBasePricePerSqm testZones testAvg none none = testAvg := by
  have h := basePrice_precedence testZones testAvg (some "28014") (some "Madrid")
    (by simp) (by simp)
  exact ⟨by simp, by simp, h.1, h.2⟩

theorem yearAdjustment_lower (cy : ℤ) (v : Option ℤ) :
    -(12/100) ≤ getYearAdjustment cy v := by
  unfold getYearAdjustment
  split
  · dsimp only
    split_ifs <;> norm_num
  · norm_num

theorem sizeAdjustment_lower (s : ℚ) : -(8/100) ≤ getSizeAdjustment s := by
  unfold getSizeAdjustment
  repeat' split
  all_goals norm_num

theorem finishAdjustment_lower (q : Option FinishQuality) :
    -(20/100) ≤ getFinishQualityAdjustment q := by
  rcases q with _ | q
  · norm_num [getFinishQualityAdjustment]
  · cases q <;> norm_num [getFinishQualityAdjustment]

theorem roomsAdjustment_lower (b bt s : Option ℚ) :
    -(5/100) ≤ getRoomsAdjustment b bt s := by
  unfold getRoomsAdjustment
  split
  · norm_num
  · dsimp only
    split_ifs <;> norm_num

theorem extrasAdjustment_nonneg (l : List String) : 0 ≤ getExtrasAdjustment l := by
  unfold getExtrasAdjustment
  exact le_min (rawExtrasSum_nonneg l) (by norm_num)

theorem totalAdjustment_nonneg (cy : ℤ) (p : PropertyData) :
    0 ≤ totalAdjustmentOf cy p := by
  unfold totalAdjustmentOf
  have h1 := yearAdjustment_lower cy p.constructionYear
  have h2 := extrasAdjustment_nonneg (p.extras.getD [])
  have h3 := finishAdjustment_lower p.finishQuality
  have h4 := sizeAdjustment_lower (numOr p.surface 100)
  have h5 := roomsAdjustment_lower p.bedrooms p.bathrooms p.surface
  linarith

theorem basePrice_nonneg (zones : ZoneTable) (avg : ℚ) (pc city : Option String)
    (hz : ∀ e ∈ zones, 0 ≤ e.2.pricePerSqm) (ha : 0 ≤ avg) :
    0 ≤ getBasePricePerSqm zones avg pc city := by
  unfold getBasePricePerSqm
  split
  · rename_i z heq
    split at heq
    · obtain ⟨e, he, hez⟩ := zoneLookup_mem _ _ _ heq
      rw [← hez]
      exact hz e he
    · simp at heq
  · split
    · rename_i e heq
      split at heq
      · exact hz e (List.mem_of_find?_eq_some heq)
      · simp at heq
    · split
      · rename_i e heq
        split at heq
        · have := hz e (List.mem_of_find?_eq_some heq)
          positivity
        · simp at heq
      · exact ha

/-- **C1 (amended)**: for every snapshot whose surface, when present, is
non-negative (the data model types surface as a positive number), and any
zone table with non-negative prices, the rounded results satisfy
conservative ≤ estimated ≤ optimistic. -/
theorem valuation_ordering (zones : ZoneTable) (avg : ℚ) (cy : ℤ)
    (p : PropertyData)
    (hz : ∀ e ∈ zones, 0 ≤ e.2.pricePerSqm) (ha : 0 ≤ avg)
    (hs : ∀ s, p.surface = some s → 0 ≤ s) :
    (calculateValuation zones avg cy p).conservative
        ≤ (calculateValuation zones avg cy p).estimated
    ∧ (calculateValuation zones avg cy p).estimated
        ≤ (calculateValuation zones avg cy p).optimistic := by
  have hbase := basePrice_nonneg zones avg p.postalCode p.city hz ha
  have htot := totalAdjustment_nonneg cy p
  have hsurf : 0 ≤ numOr p.surface 100 := by
    rcases hps : p.surface with _ | s
    · norm_num [numOr, numTruthy]
    · have h0 := hs s hps
      unfold numOr
      split
      · simpa using h0
      · norm_num
  have hest : 0 ≤ getBasePricePerSqm zones avg p.postalCode p.city
      * totalAdjustmentOf cy p * numOr p.surface 100 :=
    mul_nonneg (mul_nonneg hbase htot) hsurf
  simp only [calculateValuation]
  constructor
  · exact jsRound_mono (by nlinarith)
  · exact jsRound_mono (by nlinarith)

/-- Witness for the ordering claim on the fixture table. -/
theorem valuation_ordering_witness :
    (∀ e ∈ testZones, 0 ≤ e.2.pricePerSqm) ∧ (0:ℚ) ≤ testAvg
    ∧ (∀ s : ℚ, pOrderingWitness.surface = some s → 0 ≤ s)
    ∧ (calculateValuation testZones testAvg 2026 pOrderingWitness).conservative
        ≤ (calculateValuation testZones testAvg 2026 pOrderingWitness).estimated
    ∧ (calculateValuation testZones testAvg 2026 pOrderingWitness).estimated
        ≤ (calculateValuation testZones testAvg 2026 pOrderingWitness).optimistic := by
  have hz : ∀ e ∈ testZones, 0 ≤ e.2.pricePerSqm := by
    intro e he
    simp [testZones] at he
    rcases he with he | he <;> rw [he] <;> norm_num
  have ha : (0:ℚ) ≤ testAvg := by norm_num [testAvg]
  have hs : ∀ s : ℚ, pOrderingWitness.surface = some s → 0 ≤ s := by
    intro s h
    simp [pOrderingWitness] at h
    rw [← h]
    norm_num
  obtain ⟨h1, h2⟩ := valuation_ordering testZones testAvg 2026 pOrderingWitness hz ha hs
  exact ⟨hz, ha, hs, h1, h2⟩

/-- **C1 counterexample**: the §4.4 "always holds for every input
snapshot" reading fails: on a snapshot with surface −50 (every field a
legal member of `Partial<PropertyData>`) the rounded conservative value
exceeds the rounded estimated value, even over a table with non-negative
prices. -/
theorem valuation_ordering_cex :
    (∀ e ∈ testZones, 0 ≤ e.2.pricePerSqm)
    ∧ ¬ ((calculateValuation testZones testAvg 2026 pNegSurface).conservative
          ≤ (calculateValuation testZones testAvg 2026 pNegSurface).estimated) := by
  constructor
  · intro e he
    simp [testZones] at he
    rcases he with he | he <;> rw [he] <;> norm_num
  · norm_num [calculateValuation, totalAdjustmentOf, pNegSurface, testAvg, testZones,
      getBasePricePerSqm, strTruthy, getYearAdjustment, intTruthy, getExtrasAdjustment,
      rawExtrasSum, getFinishQualityAdjustment, getSizeAdjustment, getRoomsAdjustment,
      numOr, numTruthy, jsRound]

theorem yearAdj_neutral (y : ℤ) (h1 : 2011 ≤ y) (h2 : y ≤ 2020) :
    getYearAdjustment y (some 2000) = 0 := by
  unfold getYearAdjustment
  have ht : intTruthy (some (2000:ℤ)) = true := by norm_num [intTruthy]
  rw [ht]
  simp only [if_true, Option.getD_some]
  rw [if_neg (by omega : ¬(y - 2000 ≤ 0)), if_neg (by omega : ¬(y - 2000 ≤ 5)),
    if_neg (by omega : ¬(y - 2000 ≤ 10)), if_pos (by omega : y - 2000 ≤ 20)]

/-- **C3 (amended)**: for the §8 scenario snapshot the total adjustment is
exactly 1 — and hence estimated = round(basePrice(28014)·100),
conservative = round(0.9·basePrice·100), optimistic =
round(1.1·basePrice·100) — precisely when the current clock year `y` makes
the year-2000 building 11–20 years old (2011 ≤ y ≤ 2020); at the actual
current year 2026 the age adjustment is −0.05 instead. -/
theorem scenario_neutral (y : ℤ) (zones : ZoneTable) (avg : ℚ) (z : ZoneData)
    (h1 : 2011 ≤ y) (h2 : y ≤ 2020)
    (hz : zoneLookup zones "28014" = some z) :
    totalAdjustmentOf y pScenario = 1
    ∧ (calculateValuation zones avg y pScenario).estimated
        = jsRound (z.pricePerSqm * 100)
    ∧ (calculateValuation zones avg y pScenario).conservative
        = jsRound (z.pricePerSqm * 100 * (9/10))
    ∧ (calculateValuation zones avg y pScenario).optimistic
        = jsRound (z.pricePerSqm * 100 * (11/10)) := by
  have hyear := yearAdj_neutral y h1 h2
  have htot : totalAdjustmentOf y pScenario = 1 := by
    unfold totalAdjustmentOf
    rw [show pScenario.constructionYear = some 2000 from rfl, hyear]
    norm_num [pScenario, getExtrasAdjustment, rawExtrasSum,
      getFinishQualityAdjustment, getSizeAdjustment, getRoomsAdjustment,
      numOr, numTruthy]
  have hbase : getBasePricePerSqm zones avg pScenario.postalCode pScenario.city
      = z.pricePerSqm := by
    unfold getBasePricePerSqm
    rw [show pScenario.postalCode = some "28014" from rfl]
    simp [strTruthy, hz]
  refine ⟨htot, ?_, ?_, ?_⟩ <;>
    simp only [calculateValuation, htot, hbase] <;>
    norm_num [pScenario, numOr, numTruthy]

/-- **C3 counterexample**: at the actual current year (2026) the scenario's
total adjustment is 0.95, not 1.0, and the estimated value is not
round(basePrice(28014)·100). -/
theorem scenario_neutral_cex :
    zoneLookup testZones "28014"
      = some { city := "Madrid", zone := "Centro", pricePerSqm := 5000, tier := "premium" }
    ∧ totalAdjustmentOf 2026 pScenario ≠ 1
    ∧ (calculateValuation testZones testAvg 2026 pScenario).estimated
        ≠ jsRound ((5000:ℚ) * 100) := by
  refine ⟨rfl, ?_, ?_⟩
  · norm_num [totalAdjustmentOf, pScenario, getYearAdjustment, intTruthy,
      getExtrasAdjustment, rawExtrasSum, getFinishQualityAdjustment,
      getSizeAdjustment, getRoomsAdjustment, numOr, numTruthy]
  · have htot26 : totalAdjustmentOf 2026 pScenario = 19/20 := by
      norm_num [totalAdjustmentOf, pScenario, getYearAdjustment, intTruthy,
        getExtrasAdjustment, rawExtrasSum, getFinishQualityAdjustment,
        getSizeAdjustment, getRoomsAdjustment, numOr, numTruthy]
    have hbase : getBasePricePerSqm testZones testAvg pScenario.postalCode pScenario.city
        = 5000 := by
      unfold getBasePricePerSqm
      rw [show pScenario.postalCode = some "28014" from rfl]
      simp [strTruthy, zoneLookup, testZones]
    simp only [calculateValuation, htot26, hbase]
    norm_num [pScenario, numOr, numTruthy, jsRound]

/-- Witness for the amended scenario claim at current year 2015. -/
theorem scenario_neutral_witness :
    ((2011:ℤ) ≤ 2015 ∧ (2015:ℤ) ≤ 2020
      ∧ zoneLookup testZones "28014"
          = some { city := "Madrid", zone := "Centro", pricePerSqm := 5000, tier := "premium" })
    ∧ totalAdjustmentOf 2015 pScenario = 1
    ∧ (calculateValuation testZones testAvg 2015 pScenario).estimated
        = jsRound ((5000:ℚ) * 100) := by
  have h := scenario_neutral 2015 testZones testAvg
    { city := "Madrid", zone := "Centro", pricePerSqm := 5000, tier := "premium" }
    (by norm_num) (by norm_num) rfl
  exact ⟨⟨by norm_num, by norm_num, rfl⟩, h.1, h.2.1⟩

/-- **C9**: a zero value in a numeric attribute is indistinguishable from
an absent one: surface 0 yields the same `ValuationResult` as no surface
(default 100 in both the size adjustment and the estimated-value
multiplication), bedrooms 0 forces the rooms adjustment to 0, and
zero-valued latitude, longitude, surface, construction year, bedrooms or
bathrooms earn the same confidence as when absent (so coordinates earn +5
only when both are present and non-zero). -/
theorem zero_behaves_as_absent (zones : ZoneTable) (avg : ℚ) (cy : ℤ)
    (p : PropertyData) (b s : Option ℚ) :
    calculateValuation zones avg cy { p with surface := some 0 }
      = calculateValuation zones avg cy { p with surface := none }
    ∧ getRoomsAdjustment (some 0) b s = 0
    ∧ calculateConfidence zones { p with latitude := some 0 }
        = calculateConfidence zones { p with latitude := none }
    ∧ calculateConfidence zones { p with longitude := some 0 }
        = calculateConfidence zones { p with longitude := none }
    ∧ calculateConfidence zones { p with surface := some 0 }
        = calculateConfidence zones { p with surface := none }
    ∧ calculateConfidence zones { p with constructionYear := some 0 }
        = calculateConfidence zones { p with constructionYear := none }
    ∧ calculateConfidence zones { p with bedrooms := some 0 }
        = calculateConfidence zones { p with bedrooms := none }
    ∧ calculateConfidence zones { p with bathrooms := some 0 }
        = calculateConfidence zones { p with bathrooms := none } := by
  refine ⟨?_, ?_, ?_, ?_, ?_, ?_, ?_, ?_⟩
  · simp [calculateValuation, totalAdjustmentOf, calculateConfidence,
      getRoomsAdjustment, getSizeAdjustment, numOr, numTruthy]
  · simp [getRoomsAdjustment, numTruthy]
  · simp [calculateConfidence, numTruthy]
  · simp [calculateConfidence, numTruthy]
  · simp [calculateConfidence, numTruthy]
  · simp [calculateConfidence, intTruthy]
  · simp [calculateConfidence, numTruthy]
  · simp [calculateConfidence, numTruthy]

/-- **C6**: normalization of the cadastral reference round-trips: a
structured parts object (with no flat string anywhere in the fallback
chain) normalizes to the concatenation pc1·pc2·car·cc1·cc2, the same
reference supplied already flattened normalizes to the same string, and
with neither form present the reference degrades to `""`. -/
theorem rc_roundtrip (d dStr d0 : CatastroResponse) (a b c e f : String)
    (htop : d.top.rc = RCField.absent) (hpd : (chosenPD d).rc = RCField.absent)
    (hobj : (chosenPD d).referenciaCatastral
      = RCField.obj ⟨none, some a, some b, some c, some e, some f⟩)
    (htop2 : dStr.top.rc = RCField.absent) (hpd2 : (chosenPD dStr).rc = RCField.absent)
    (hstr : (chosenPD dStr).referenciaCatastral = RCField.str (a ++ b ++ c ++ e ++ f))
    (htop0 : d0.top.rc = RCField.absent) (hpd0 : (chosenPD d0).rc = RCField.absent)
    (habs0 : (chosenPD d0).referenciaCatastral = RCField.absent) :
    (parseCadastralResponse (some d)).map CadastralData.cadastralReference
        = some (a ++ b ++ c ++ e ++ f)
    ∧ (parseCadastralResponse (some dStr)).map CadastralData.cadastralReference
        = some (a ++ b ++ c ++ e ++ f)
    ∧ (parseCadastralResponse (some d0)).map CadastralData.cadastralReference
        = some "" := by
  have key : ∀ r : CatastroResponse,
      (parseCadastralResponse (some r)).map CadastralData.cadastralReference
        = some (resolveRC (rcValueOf (chosenPD r) r)) := fun _ => rfl
  refine ⟨?_, ?_, ?_⟩
  · rw [key d]
    unfold rcValueOf
    rw [hpd, hobj, htop]
    simp [jsOrRC, rcTruthy, resolveRC, concatRCParts, strOr_none, strOr_some_empty]
  · rw [key dStr]
    unfold rcValueOf
    rw [hpd2, hstr, htop2]
    by_cases h0 : a ++ b ++ c ++ e ++ f = ""
    · simp [jsOrRC, rcTruthy, resolveRC, h0]
    · simp [jsOrRC, rcTruthy, resolveRC, h0]
  · rw [key d0]
    unfold rcValueOf
    rw [hpd0, habs0, htop0]
    simp [jsOrRC, rcTruthy, resolveRC]

/-- Witness for the reference round-trip on the §8 scenario parts. -/
theorem rc_roundtrip_witness :
    (parseCadastralResponse (some rcPartsResponse)).map CadastralData.cadastralReference
        = some "9872023VH5797"
    ∧ (parseCadastralResponse (some rcStrResponse)).map CadastralData.cadastralReference
        = some "9872023VH5797"
    ∧ (parseCadastralResponse (some emptyResponse)).map CadastralData.cadastralReference
        = some "" := by
  have h := rc_roundtrip rcPartsResponse rcStrResponse emptyResponse
    "98" "72023" "VH" "57" "97" rfl rfl rfl rfl rfl rfl rfl rfl rfl
  exact ⟨h.1, h.2.1, h.2.2⟩

/-- **C8** (code bug): in the null-aware model the normalizer returns
null exactly on the absent response and degrades the all-absent response
to the documented defaults (empty strings, "Residencial", surface 100,
constructionYear 2000) — but, contradicting the never-raise policy, it
throws a TypeError (modelled as `Except.error`) on a present response
whose `direccion` is JSON null or whose first building unit is JSON null,
and those are exactly its error cases. -/
theorem parse_null_shapes :
    parseCadastralResponseE none = Except.ok none
    ∧ parseCadastralResponseE (some emptyResponseE)
        = Except.ok (some defaultCadastralRecord)
    ∧ parseCadastralResponseE (some nullDireccionResponse) = Except.error "TypeError"
    ∧ parseCadastralResponseE (some nullUnitResponse) = Except.error "TypeError"
    ∧ (∀ dE : Option CatastroResponseE, parseCadastralResponseE dE = Except.ok none ↔ dE = none)
    ∧ (∀ d : CatastroResponseE,
        (∃ msg, parseCadastralResponseE (some d) = Except.error msg)
          ↔ (chosenPDE d = none
             ∨ ∃ pd, chosenPDE d = some pd ∧ pd.direccion = DireccionFieldE.jsNull)) := by
  refine ⟨rfl, rfl, rfl, rfl, ?_, ?_⟩
  · intro dE
    cases dE with
    | none => simp [parseCadastralResponseE]
    | some d =>
      unfold parseCadastralResponseE
      dsimp only
      rcases h : chosenPDE d with _ | pd
      · simp
      · cases hd : pd.direccion <;> simp [parseCadastralResponse, hd]
  · intro d
    unfold parseCadastralResponseE
    dsimp only
    rcases h : chosenPDE d with _ | pd
    · simp
    · cases hd : pd.direccion <;> simp [hd]

/-- **C10**: the normalized surface and construction year are integers by
construction; a surface or year source string whose `parseInt` (after the
surface's first decimal comma is replaced by a point) yields NaN or 0
falls back to 100 resp. 2000; and a surface of "85,5" normalizes to the
integer 85 (the fractional part is discarded). -/
theorem parse_numeric_fields (r : CatastroResponse) (e : DatosEconomicos) :
    ((jsParseInt (replaceFirstStr (surfaceStrOf (chosenPD r)) ',' '.') = none
        ∨ jsParseInt (replaceFirstStr (surfaceStrOf (chosenPD r)) ',' '.') = some 0) →
      (parseCadastralResponse (some r)).map CadastralData.surface = some 100)
    ∧ ((jsParseInt (yearStrOf (chosenPD r)) = none
        ∨ jsParseInt (yearStrOf (chosenPD r)) = some 0) →
      (parseCadastralResponse (some r)).map CadastralData.constructionYear = some 2000)
    ∧ ((chosenPD r).datosEconomicos = some e → e.superficieConstruida = some "85,5" →
      (parseCadastralResponse (some r)).map CadastralData.surface = some 85) := by
  have keyS : (parseCadastralResponse (some r)).map CadastralData.surface
      = some (intOr (jsParseInt (replaceFirstStr (surfaceStrOf (chosenPD r)) ',' '.')) 100) :=
    rfl
  have keyY : (parseCadastralResponse (some r)).map CadastralData.constructionYear
      = some (intOr (jsParseInt (yearStrOf (chosenPD r))) 2000) := rfl
  refine ⟨?_, ?_, ?_⟩
  · intro h
    rw [keyS]
    rcases h with h | h <;> rw [h] <;> simp [intOr, intTruthy]
  · intro h
    rw [keyY]
    rcases h with h | h <;> rw [h] <;> simp [intOr, intTruthy]
  · intro hde hsc
    rw [keyS]
    have hstr : surfaceStrOf (chosenPD r) = "85,5" := by
      unfold surfaceStrOf
      rw [hde]
      simp only [Option.getD_some]
      rw [hsc]
      simp [strOr, strTruthy]
    rw [hstr]
    decide

/-- Witness for the numeric normalization claims: a "85,5" surface with an
unparseable year, and a surface that parses to 0. -/
theorem parse_numeric_fields_witness :
    (parseCadastralResponse (some r85Response)).map CadastralData.surface = some 85
    ∧ (parseCadastralResponse (some r85Response)).map CadastralData.constructionYear
        = some 2000
    ∧ (parseCadastralResponse (some rZeroResponse)).map CadastralData.surface = some 100 := by
  have h1 := parse_numeric_fields r85Response ⟨none, some "85,5", none, some "abc", none⟩
  have h2 := parse_numeric_fields rZeroResponse ⟨none, none, some "0", none, none⟩
  exact ⟨h1.2.2 rfl rfl, h1.2.1 (Or.inl (by decide)), h2.1 (Or.inr (by decide))⟩

theorem resolveRC_chain (inm : Inmueble) (top : RCField)
    (hrc : inm.rc = RCField.absent) (htop : top = RCField.absent) :
    resolveRC (jsOrRC inm.rc (jsOrRC inm.referenciaCatastral top)) = getRCString inm := by
  rw [hrc, htop]
  cases h : inm.referenciaCatastral with
  | absent => simp [jsOrRC, rcTruthy, resolveRC, getRCString, h]
  | str t =>
    by_cases ht : t = "" <;>
      simp [jsOrRC, rcTruthy, resolveRC, getRCString, h, ht]
  | obj o => simp [jsOrRC, rcTruthy, resolveRC, getRCString, h]

/-- **C7 counterexample**: the unit-selection path and single-unit
normalization do not share defaults: for a unit with every field absent,
unit selection yields surface 0 (default string "0") while
`parseCadastralResponse` on a response containing that unit yields the
default surface 100. -/
theorem unit_selection_cex :
    (selectUnitAttrs ({} : Inmueble) none).surface
      ≠ (parseCadastralResponse (some emptyUnitResponse)).map CadastralData.surface := by
  decide

/-- **C7 (amended)**: the unit-selection path resolves its fields from
`datosEconomicos` only, with defaults "0" (surface, year: parsed value 0)
and the raw label "Residencial" (use), unlike `parseCadastralResponse`'s
defaults 100/2000 and use-code mapping; the two paths produce identical
reference, surface, construction year and use for every unit whose
`datosEconomicos` carries surface and year strings parsing to the same
non-zero integers (with or without the parse path's comma normalization)
and a non-empty use label outside the single-letter code map; the floor
label is "Nº" for a non-zero numeric floor and "Bajo" for an empty, zero
or unparseable one. -/
theorem unit_selection_agrees (r : CatastroResponse) (inm : Inmueble)
    (e : DatosEconomicos) (prevPostal : Option String)
    (s y u : String) (n m : ℤ)
    (hch : chosenPD r = inm) (htop : r.top.rc = RCField.absent)
    (hrc : inm.rc = RCField.absent)
    (hde : inm.datosEconomicos = some e)
    (hs : e.superficieConstruida = some s)
    (hy : e.anoConstruccionTilde = some y)
    (hu : e.uso = some u)
    (hns : jsParseInt s = some n)
    (hnsr : jsParseInt (replaceFirstStr s ',' '.') = some n)
    (hn0 : n ≠ 0)
    (hny : jsParseInt y = some m) (hm0 : m ≠ 0)
    (hu0 : u ≠ "") (humap : useMapping u = none) :
    ((parseCadastralResponse (some r)).map CadastralData.surface = some n
      ∧ (selectUnitAttrs inm prevPostal).surface = some n)
    ∧ ((parseCadastralResponse (some r)).map CadastralData.constructionYear = some m
      ∧ (selectUnitAttrs inm prevPostal).constructionYear = some m)
    ∧ ((parseCadastralResponse (some r)).map CadastralData.propertyType = some u
      ∧ (selectUnitAttrs inm prevPostal).propertyType = u)
    ∧ (parseCadastralResponse (some r)).map CadastralData.cadastralReference
        = some ((selectUnitAttrs inm prevPostal).cadastralReference)
    ∧ (∀ planta k, jsParseInt planta = some k → k ≠ 0 →
        formatFloor planta = toString k ++ "º")
    ∧ (∀ planta, planta = "" ∨ jsParseInt planta = none ∨ jsParseInt planta = some 0 →
        formatFloor planta = "Bajo") := by
  have hsne : s ≠ "" := by
    intro h0
    rw [h0, jsParseInt_empty] at hns
    exact Option.noConfusion hns
  have hyne : y ≠ "" := by
    intro h0
    rw [h0, jsParseInt_empty] at hny
    exact Option.noConfusion hny
  have hsurf : surfaceStrOf inm = s := by
    unfold surfaceStrOf
    rw [hde]
    simp only [Option.getD_some]
    rw [hs, strOr_some _ _ hsne]
  have hyear : yearStrOf inm = y := by
    unfold yearStrOf
    rw [hde]
    simp only [Option.getD_some]
    rw [hy, strOr_some _ _ hyne]
  have huso : usoOf inm = u := by
    unfold usoOf
    rw [hde]
    simp only [Option.getD_some]
    rw [hu, strOr_some _ _ hu0]
  have keyS : (parseCadastralResponse (some r)).map CadastralData.surface
      = some (intOr (jsParseInt (replaceFirstStr (surfaceStrOf (chosenPD r)) ',' '.')) 100) :=
    rfl
  have keyY : (parseCadastralResponse (some r)).map CadastralData.constructionYear
      = some (intOr (jsParseInt (yearStrOf (chosenPD r))) 2000) := rfl
  have keyT : (parseCadastralResponse (some r)).map CadastralData.propertyType
      = some (strOr (useMapping (usoOf (chosenPD r)))
          (if usoOf (chosenPD r) == "" then "Residencial" else usoOf (chosenPD r))) := rfl
  have keyR : (parseCadastralResponse (some r)).map CadastralData.cadastralReference
      = some (resolveRC (rcValueOf (chosenPD r) r)) := rfl
  refine ⟨⟨?_, ?_⟩, ⟨?_, ?_⟩, ⟨?_, ?_⟩, ?_, ?_, ?_⟩
  · rw [keyS, hch, hsurf, hnsr]
    simp [intOr, intTruthy, hn0]
  · show (parseDatosEconomicos inm).superficie = some n
    unfold parseDatosEconomicos
    rw [hde]
    simp only [Option.getD_some]
    rw [hs, strOr_some _ _ hsne, hns]
  · rw [keyY, hch, hyear, hny]
    simp [intOr, intTruthy, hm0]
  · show (parseDatosEconomicos inm).ano = some m
    unfold parseDatosEconomicos
    rw [hde]
    simp only [Option.getD_some]
    rw [hy, strOr_some _ _ hyne, hny]
  · rw [keyT, hch, huso, humap]
    simp [strOr, strTruthy, hu0]
  · show (parseDatosEconomicos inm).uso = u
    unfold parseDatosEconomicos
    rw [hde]
    simp only [Option.getD_some]
    rw [hu, strOr_some _ _ hu0]
  · rw [keyR, hch]
    unfold rcValueOf
    rw [resolveRC_chain inm r.top.rc hrc htop]
    rfl
  · intro planta k hk hk0
    have hne : planta ≠ "" := by
      intro h0
      rw [h0, jsParseInt_empty] at hk
      exact Option.noConfusion hk
    unfold formatFloor
    simp [hne, hk, hk0]
  · intro planta h
    unfold formatFloor
    rcases h with h | h | h
    · simp [h]
    · by_cases hp : planta = ""
      · simp [hp]
      · simp [hp, h]
    · by_cases hp : planta = ""
      · simp [hp]
      · simp [hp, h]

/-- Witness for the amended unit-selection claim on a fully resolvable
unit, plus the two floor-label shapes. -/
theorem unit_selection_agrees_witness :
    ((parseCadastralResponse (some unitResponse)).map CadastralData.surface = some 85
      ∧ (selectUnitAttrs unitInm (some "28014")).surface = some 85)
    ∧ ((parseCadastralResponse (some unitResponse)).map CadastralData.constructionYear
          = some 1999
      ∧ (selectUnitAttrs unitInm (some "28014")).constructionYear = some 1999)
    ∧ ((parseCadastralResponse (some unitResponse)).map CadastralData.propertyType
          = some "Residencial"
      ∧ (selectUnitAttrs unitInm (some "28014")).propertyType = "Residencial")
    ∧ (parseCadastralResponse (some unitResponse)).map CadastralData.cadastralReference
        = some ((selectUnitAttrs unitInm (some "28014")).cadastralReference)
    ∧ formatFloor "3" = "3º"
    ∧ formatFloor "0" = "Bajo" := by
  have h := unit_selection_agrees unitResponse unitInm
    ⟨some "Residencial", some "85", none, some "1999", none⟩ (some "28014")
    "85" "1999" "Residencial" 85 1999
    rfl rfl rfl rfl rfl rfl rfl (by decide) (by decide) (by decide)
    (by decide) (by decide) (by decide) (by decide)
  exact ⟨h.1, h.2.1, h.2.2.1, h.2.2.2.1,
    h.2.2.2.2.1 "3" 3 (by decide) (by decide),
    h.2.2.2.2.2 "0" (Or.inr (Or.inr (by decide)))⟩

end Valorador
